import Mathlib

/-
Verification of the Polly-API client scripts: a shallow embedding of
src/fetch_polls.py, src/get_poll_results.py and src/vote_on_poll.py.
HTTP interactions are modelled by passing the outcome of each request as a
function of the request data; Python exceptions become explicit error values;
the Python float percentages are modelled over exact rational arithmetic.
-/

namespace Polly

/-- One selectable option of a poll, as parsed from the JSON payload. -/
structure PollOption where
  id : Nat
  text : String
  poll_id : Nat
deriving DecidableEq

/-- A poll object, as parsed from the JSON payload of the listing endpoint. -/
structure Poll where
  id : Nat
  question : String
  created_at : String
  owner_id : Nat
  options : List PollOption
deriving DecidableEq

/-- The structured content of a requests HTTPError or transport failure: an
HTTPError raised by raise_for_status carries the status and body of the
response that triggered it; any other RequestException carries its message. -/
inductive ReqCause where
  | httpStatus (status : Nat) (body : String)
  | transport (msg : String)
deriving DecidableEq

/-- A Python exception escaping one of the client functions.  A
requestException records the context prefix that the except clause prepends
when re-raising together with the structured cause; unboundLocalError models
reading a local variable that was never assigned. -/
inductive PyError where
  | valueError (msg : String)
  | requestException (ctx : String) (cause : ReqCause)
  | unboundLocalError (name : String)
deriving DecidableEq

/-- Outcome of one HTTP request made through the requests library: either a
received response (status code, raw body, parsed JSON payload) or a raised
RequestException with its message. -/
inductive HttpOutcome (α : Type) where
  | response (status : Nat) (body : String) (payload : α)
  | requestError (msg : String)
deriving DecidableEq

/-- Translation of fetch_polls from src/fetch_polls.py.  The server argument
maps the query parameters skip and limit to the outcome of the GET request on
the polls endpoint.  A 200 response returns the parsed list; for a 4xx or 5xx
status, raise_for_status raises an HTTPError which the except clause re-raises
as a RequestException with the fetch context prefix; any other status falls
through the if chain, so the Python function returns None. -/
def fetch_polls (server : Nat → Nat → HttpOutcome (List Poll)) (skip limit : Nat) :
    Except PyError (Option (List Poll)) :=
  match server skip limit with
  | .response status body payload =>
    if status = 200 then
      .ok (some payload)
    else if 400 ≤ status ∧ status < 600 then
      .error (.requestException ("Failed to fetch polls: ") (.httpStatus status body))
    else
      .ok none
  | .requestError msg =>
    .error (.requestException ("Failed to fetch polls: ") (.transport msg))

/-- Result of the pagination loop of fetch_all_polls: the accumulated polls
together with the instrumented list of (skip, limit) page requests issued, or
the propagated fetch error with the requests issued up to and including the
failing one, or exhaustion of the fuel bounding the model of the unbounded
Python while loop. -/
inductive PaginationResult where
  | ok (polls : List Poll) (requests : List (Nat × Nat))
  | err (e : PyError) (requests : List (Nat × Nat))
  | outOfFuel
deriving DecidableEq

/-- The while loop of fetch_all_polls from src/fetch_polls.py with explicit
state: the current skip offset and the accumulated all_polls list, plus the
instrumentation list of page requests issued.  A falsy page (None or the empty
list) breaks the loop; a page shorter than page_size is appended and then
breaks the loop; otherwise the page is appended and skip advances by
page_size. -/
def fetch_all_polls_aux (server : Nat → Nat → HttpOutcome (List Poll)) (page_size : Nat) :
    Nat → Nat → List Poll → List (Nat × Nat) → PaginationResult
  | 0, _, _, _ => .outOfFuel
  | fuel + 1, skip, all_polls, reqs =>
    match fetch_polls server skip page_size with
    | .error e => .err e (reqs ++ [(skip, page_size)])
    | .ok polls_page =>
      match polls_page with
      | none => .ok all_polls (reqs ++ [(skip, page_size)])
      | some page =>
        if page.isEmpty then
          .ok all_polls (reqs ++ [(skip, page_size)])
        else if page.length < page_size then
          .ok (all_polls ++ page) (reqs ++ [(skip, page_size)])
        else
          fetch_all_polls_aux server page_size fuel (skip + page_size)
            (all_polls ++ page) (reqs ++ [(skip, page_size)])

/-- Translation of fetch_all_polls from src/fetch_polls.py: run the pagination
loop from skip 0 with an empty accumulator. -/
def fetch_all_polls (server : Nat → Nat → HttpOutcome (List Poll))
    (page_size fuel : Nat) : PaginationResult :=
  fetch_all_polls_aux server page_size fuel 0 [] []

/-- A listing endpoint that exposes a fixed finite ordered sequence of polls:
the page requested at offset skip with requested size limit is the slice of at
most limit polls starting at skip, always served with status 200. -/
def sliceServer (polls : List Poll) : Nat → Nat → HttpOutcome (List Poll) :=
  fun skip limit => .response 200 ("") ((polls.drop skip).take limit)

/-- One row of a poll results payload, as parsed from JSON. -/
structure ResultRow where
  option_id : Nat
  text : String
  vote_count : Nat
deriving DecidableEq

/-- A poll results payload, as parsed from JSON. -/
structure ResultsPayload where
  poll_id : Nat
  question : String
  results : List ResultRow
deriving DecidableEq

/-- Outcome of the GET request of get_poll_results, matching the except
clauses of src/get_poll_results.py: a response with parsed payload, a
ConnectionError, a Timeout, another RequestException, or any other
exception. -/
inductive ReqOutcome (α : Type) where
  | response (status : Nat) (body : String) (payload : α)
  | connectionError
  | timeout
  | requestException (msg : String)
  | otherException (msg : String)
deriving DecidableEq

/-- Translation of get_poll_results from src/get_poll_results.py: returns the
optional parsed payload together with the list of printed error lines.  Every
branch returns, so no exception escapes: 200 returns the payload; 404 prints a
not-found message naming poll_id and returns None; any other status prints the
status and body and returns None; and each except clause prints a message and
returns None. -/
def get_poll_results (base_url : String) (outcome : ReqOutcome ResultsPayload)
    (poll_id : Nat) : Option ResultsPayload × List String :=
  match outcome with
  | .response status body payload =>
    if status = 200 then
      (some payload, [])
    else if status = 404 then
      (none, ["Error: Poll with ID " ++ toString poll_id ++ " not found"])
    else
      (none, ["Error: Unexpected status code " ++ toString status, "Response: " ++ body])
  | .connectionError => (none, ["Error: Could not connect to " ++ base_url])
  | .timeout => (none, ["Error: Request timed out"])
  | .requestException msg => (none, ["Error: Request failed - " ++ msg])
  | .otherException msg => (none, ["Unexpected error: " ++ msg])

/-- The total computed in display_poll_results of src/get_poll_results.py:
the sum of vote_count over all rows of the results payload. -/
def total_votes (results : ResultsPayload) : Nat :=
  (results.results.map (fun o => o.vote_count)).sum

/-- The per-row percentage computed in display_poll_results, over exact
rational arithmetic: vote_count divided by the total times 100 when the total
is positive, else 0. -/
def row_percentage (total vote_count : Nat) : Rat :=
  if 0 < total then (vote_count : Rat) / (total : Rat) * 100 else 0

/-- The aggregation performed by display_poll_results from
src/get_poll_results.py: for each row, the option id, its vote count and its
percentage share of the total (the print formatting is omitted; only the
computed values are modelled). -/
def display_poll_results (results : ResultsPayload) : List (Nat × Nat × Rat) :=
  results.results.map
    (fun o => (o.option_id, o.vote_count, row_percentage (total_votes results) o.vote_count))

/-- A vote object, as parsed from the JSON payload of the vote endpoint. -/
structure VoteResponse where
  id : Nat
  user_id : Nat
  option_id : Nat
  created_at : String
deriving DecidableEq

/-- Translation of vote_on_poll from src/vote_on_poll.py.  The server maps the
request data (poll_id from the URL, option_id from the JSON payload, bearer
token from the Authorization header) to the outcome of the POST request.  200
returns the parsed vote object; 401 and 404 raise ValueError, which the except
clause does not catch; a 4xx or 5xx status raises via raise_for_status and is
re-raised as a RequestException with the vote context prefix; any remaining
status falls through, so the Python function returns None. -/
def vote_on_poll (server : Nat → Nat → String → HttpOutcome VoteResponse)
    (poll_id option_id : Nat) (access_token : String) :
    Except PyError (Option VoteResponse) :=
  match server poll_id option_id access_token with
  | .response status body payload =>
    if status = 200 then
      .ok (some payload)
    else if status = 401 then
      .error (.valueError ("Unauthorized: Invalid or expired access token"))
    else if status = 404 then
      .error (.valueError ("Poll with ID " ++ toString poll_id ++
        " not found or option with ID " ++ toString option_id ++ " not found"))
    else if 400 ≤ status ∧ status < 600 then
      .error (.requestException ("Failed to cast vote: ") (.httpStatus status body))
    else
      .ok none
  | .requestError msg =>
    .error (.requestException ("Failed to cast vote: ") (.transport msg))

/-- The token payload parsed from a successful login response. -/
structure TokenPayload where
  access_token : String
deriving DecidableEq

/-- Translation of login_and_vote from src/vote_on_poll.py, instrumented with
the list of vote requests issued (each as poll_id, option_id and the bearer
token used).  A 200 login binds access_token from the token payload and makes
the single vote call; 400 raises ValueError; a 4xx or 5xx login status raises
via raise_for_status and is re-raised with the login-and-vote context prefix;
any remaining login status falls through to the vote call, where evaluating
the never-assigned local access_token raises UnboundLocalError before the vote
request is made.  A RequestException escaping the vote call is re-raised with
the login-and-vote context prefix; a ValueError propagates unchanged. -/
def login_and_vote (loginServer : String → String → HttpOutcome TokenPayload)
    (voteServer : Nat → Nat → String → HttpOutcome VoteResponse)
    (username password : String) (poll_id option_id : Nat) :
    Except PyError (Option VoteResponse) × List (Nat × Nat × String) :=
  match loginServer username password with
  | .response status body token_data =>
    if status = 200 then
      let access_token := token_data.access_token
      match vote_on_poll voteServer poll_id option_id access_token with
      | .error (.requestException ctx cause) =>
        (.error (.requestException ("Failed to login and vote: " ++ ctx) cause),
          [(poll_id, option_id, access_token)])
      | r => (r, [(poll_id, option_id, access_token)])
    else if status = 400 then
      (.error (.valueError ("Login failed: Incorrect username or password")), [])
    else if 400 ≤ status ∧ status < 600 then
      (.error (.requestException ("Failed to login and vote: ") (.httpStatus status body)), [])
    else
      (.error (.unboundLocalError ("access_token")), [])
  | .requestError msg =>
    (.error (.requestException ("Failed to login and vote: ") (.transport msg)), [])

/-- A concrete poll value used by the witnesses below. -/
def mkPoll (n : Nat) : Poll :=
  { id := n, question := "q" ++ toString n, created_at := "2024-01-01T00:00:00",
    owner_id := 1, options := [] }

/-- The 25 concrete polls of the pagination scenario. -/
def polls25 : List Poll := (List.range 25).map mkPoll

/-- The results payload of the specification scenario: two options with vote
counts 3 and 1. -/
def examplePayload : ResultsPayload :=
  { poll_id := 1, question := "Best color", results :=
      [ { option_id := 1, text := "Red", vote_count := 3 },
        { option_id := 2, text := "Blue", vote_count := 1 } ] }

/-- A results payload whose total vote count is zero. -/
def zeroPayload : ResultsPayload :=
  { poll_id := 2, question := "Anything", results :=
      [ { option_id := 1, text := "A", vote_count := 0 } ] }

/-- A listing endpoint holding no polls at all. -/
def emptyServer : Nat → Nat → HttpOutcome (List Poll) :=
  fun _ _ => .response 200 ("") []

/-- A listing endpoint on which every request fails at the transport level. -/
def failServer : Nat → Nat → HttpOutcome (List Poll) :=
  fun _ _ => .requestError ("Connection refused")

/-- A listing endpoint that answers every request with status 204. -/
def pollServer204 : Nat → Nat → HttpOutcome (List Poll) :=
  fun _ _ => .response 204 ("") []

/-- A listing endpoint that answers every request with status 500. -/
def pollServer500 : Nat → Nat → HttpOutcome (List Poll) :=
  fun _ _ => .response 500 ("server error") []

/-- A vote endpoint that answers every request with status 204. -/
def voteServer204 : Nat → Nat → String → HttpOutcome VoteResponse :=
  fun _ _ _ => .response 204 ("")
    { id := 0, user_id := 0, option_id := 0, created_at := ("") }

/-- A vote endpoint that answers every request with status 404. -/
def voteServer404 : Nat → Nat → String → HttpOutcome VoteResponse :=
  fun _ _ _ => .response 404 ("")
    { id := 0, user_id := 0, option_id := 0, created_at := ("") }

/-- A login endpoint that answers every request with status 400. -/
def loginServer400 : String → String → HttpOutcome TokenPayload :=
  fun _ _ => .response 400 ("") { access_token := ("") }

/-- On a slice-serving listing endpoint, fetch_polls returns the requested
slice. -/
theorem fetch_polls_slice (polls : List Poll) (skip limit : Nat) :
    fetch_polls (sliceServer polls) skip limit =
      .ok (some ((polls.drop skip).take limit)) := rfl

/-- The range of length one. -/
theorem range_one_eq : List.range 1 = [0] := rfl

/-- Peeling the first page request off the request trace of the remaining
pages. -/
theorem range_offset_step (s p k : Nat) :
    (List.range (k + 1 + 1)).map (fun i => (s + i * p, p)) =
      (s, p) :: (List.range (k + 1)).map (fun i => (s + p + i * p, p)) := by
  rw [List.range_succ_eq_map]
  simp only [List.map_cons, List.map_map]
  congr 1
  · simp
  · apply List.map_congr_left
    intro i _
    simp only [Function.comp_apply, Prod.mk.injEq]
    refine ⟨?_, trivial⟩
    rw [Nat.succ_mul]
    omega

/-- Loop invariant of the pagination loop over a slice-serving endpoint: from
offset s with enough fuel, the loop returns the accumulator followed by the
remaining polls, issuing the page requests at offsets s, s + p, s + 2p, .... -/
theorem fetch_all_polls_aux_slice (polls : List Poll) (p : Nat) (hp : 1 ≤ p) :
    ∀ (fuel s : Nat) (acc : List Poll) (reqs : List (Nat × Nat)),
      polls.length - s < fuel →
      fetch_all_polls_aux (sliceServer polls) p fuel s acc reqs =
        PaginationResult.ok (acc ++ polls.drop s)
          (reqs ++ (List.range ((polls.length - s) / p + 1)).map
            (fun i => (s + i * p, p))) := by
  intro fuel
  induction fuel with
  | zero => intro s acc reqs h; omega
  | succ f ih =>
    intro s acc reqs h
    rw [fetch_all_polls_aux, fetch_polls_slice]
    by_cases h1 : polls.length ≤ s
    · have hd : polls.drop s = [] := List.drop_eq_nil_of_le h1
      have hsub : polls.length - s = 0 := Nat.sub_eq_zero_of_le h1
      simp [hd, hsub, range_one_eq]
    · push_neg at h1
      have hdlen : (polls.drop s).length = polls.length - s := List.length_drop s polls
      have hne : polls.drop s ≠ [] := by
        intro hnil
        rw [hnil] at hdlen
        simp at hdlen
        omega
      by_cases h2 : polls.length - s < p
      · have htake : (polls.drop s).take p = polls.drop s := by
          apply List.take_of_length_le
          omega
        have hdiv : (polls.length - s) / p = 0 := Nat.div_eq_of_lt h2
        rw [htake]
        simp [List.isEmpty_iff, hne, hdlen, h2, hdiv, range_one_eq]
      · push_neg at h2
        have hlen : ((polls.drop s).take p).length = p := by
          rw [List.length_take]
          omega
        have hne2 : (polls.drop s).take p ≠ [] := by
          intro hnil
          rw [hnil] at hlen
          simp at hlen
          omega
        have hnlt : ¬((polls.drop s).take p).length < p := by omega
        simp only [List.isEmpty_iff, hne2, if_false, hnlt, if_true]
        rw [ih (s + p) (acc ++ (polls.drop s).take p) (reqs ++ [(s, p)]) (by omega)]
        have hjoin : acc ++ (polls.drop s).take p ++ polls.drop (s + p) =
            acc ++ polls.drop s := by
          rw [List.append_assoc]
          congr 1
          conv_rhs => rw [← List.take_append_drop p (polls.drop s)]
          congr 1
          rw [List.drop_drop, Nat.add_comm]
        have hsubsub : polls.length - (s + p) = polls.length - s - p := by omega
        have hdiveq : (polls.length - s) / p = (polls.length - s - p) / p + 1 :=
          Nat.div_eq_sub_div (by omega) h2
        have hreqs : reqs ++ [(s, p)] ++
            (List.range ((polls.length - (s + p)) / p + 1)).map
              (fun i => (s + p + i * p, p)) =
            reqs ++ (List.range ((polls.length - s) / p + 1)).map
              (fun i => (s + i * p, p)) := by
          rw [List.append_assoc, List.singleton_append, hsubsub, hdiveq,
            range_offset_step]
        rw [hjoin, hreqs]

/-- C1: for every page size p at least 1 and every server exposing a finite
ordered sequence of polls, where the page requested at offset s is the slice
of at most p polls starting at s, fetch_all_polls returns exactly those polls
in their original order (the concatenation of the pages in ascending skip
order, with no reordering or deduplication), issuing the page requests at
offsets 0, p, 2p, .... -/
theorem fetch_all_polls_slice_complete (polls : List Poll) (p : Nat) (hp : 1 ≤ p) :
    fetch_all_polls (sliceServer polls) p (polls.length + 1) =
      PaginationResult.ok polls
        ((List.range (polls.length / p + 1)).map (fun i => (i * p, p))) := by
  have h := fetch_all_polls_aux_slice polls p hp (polls.length + 1) 0 [] [] (by omega)
  simpa [fetch_all_polls] using h

/-- Witness for C1 at the 25-poll scenario with page size 10: three page
requests at offsets 0, 10 and 20, and the 25 polls returned in order. -/
theorem fetch_all_polls_slice_complete_witness :
    fetch_all_polls (sliceServer polls25) 10 26 =
      PaginationResult.ok polls25 [(0, 10), (10, 10), (20, 10)] := by
  have h := fetch_all_polls_slice_complete polls25 10 (by omega)
  exact h.trans (by rfl)

/-- C2: the pagination loop stops as soon as a fetched page is empty or
strictly shorter than page_size, issuing no request beyond the current one; on
every non-terminal page it advances the offset by exactly page_size; and if
the very first page is empty, the result is the empty sequence after exactly
one request, not an error. -/
theorem fetch_all_polls_stop_and_advance
    (server : Nat → Nat → HttpOutcome (List Poll)) (p fuel s : Nat)
    (acc : List Poll) (reqs : List (Nat × Nat)) (hp : 1 ≤ p) :
    (∀ page, fetch_polls server s p = .ok (some page) → page.length < p →
      fetch_all_polls_aux server p (fuel + 1) s acc reqs =
        PaginationResult.ok (acc ++ page) (reqs ++ [(s, p)])) ∧
    (∀ page, fetch_polls server s p = .ok (some page) → ¬page.length < p →
      fetch_all_polls_aux server p (fuel + 1) s acc reqs =
        fetch_all_polls_aux server p fuel (s + p) (acc ++ page) (reqs ++ [(s, p)])) ∧
    (fetch_polls server 0 p = .ok (some []) →
      fetch_all_polls server p (fuel + 1) = PaginationResult.ok [] [(0, p)]) := by
  refine ⟨?_, ?_, ?_⟩
  · intro page hfetch hlt
    rw [fetch_all_polls_aux, hfetch]
    by_cases hpe : page = []
    · subst hpe; simp
    · simp [List.isEmpty_iff, hpe, hlt]
  · intro page hfetch hnlt
    have hpe : page ≠ [] := by
      intro hnil
      rw [hnil] at hnlt
      simp at hnlt
      omega
    rw [fetch_all_polls_aux, hfetch]
    simp [List.isEmpty_iff, hpe, hnlt]
  · intro hfetch
    rw [fetch_all_polls, fetch_all_polls_aux, hfetch]
    simp

/-- Witness for C2 at a listing endpoint holding zero polls and page size 10:
one request, empty result. -/
theorem fetch_all_polls_stop_and_advance_witness :
    fetch_all_polls emptyServer 10 1 = PaginationResult.ok [] [(0, 10)] :=
  (fetch_all_polls_stop_and_advance emptyServer 10 0 0 [] [] (by omega)).2.2 rfl

/-- C5: if the page fetch at the current offset fails, the pagination loop
aborts at once and propagates that single fetch error; the polls accumulated
from earlier successful pages (the acc argument) are discarded, since the
error outcome carries no polls. -/
theorem fetch_all_polls_error_propagation
    (server : Nat → Nat → HttpOutcome (List Poll)) (p fuel s : Nat)
    (acc : List Poll) (reqs : List (Nat × Nat)) (e : PyError)
    (hfetch : fetch_polls server s p = .error e) :
    fetch_all_polls_aux server p (fuel + 1) s acc reqs =
      PaginationResult.err e (reqs ++ [(s, p)]) := by
  rw [fetch_all_polls_aux, hfetch]

/-- Witness for C5: a transport failure at offset 0 discards the poll already
accumulated and surfaces the wrapped fetch error. -/
theorem fetch_all_polls_error_propagation_witness :
    fetch_all_polls_aux failServer 10 1 0 [mkPoll 0] [] =
      PaginationResult.err
        (.requestException ("Failed to fetch polls: ")
          (.transport ("Connection refused"))) [(0, 10)] :=
  fetch_all_polls_error_propagation failServer 10 0 0 [mkPoll 0] [] _ rfl

/-- C3: display_poll_results computes the total as the sum of all vote counts
and, for each row, a percentage equal to vote_count / total * 100 when the
total is positive and 0 when the total is 0; on the scenario payload with
vote counts 3 and 1 the total is 4 and the percentages are 75 and 25. -/
theorem display_poll_results_spec (payload : ResultsPayload) :
    total_votes payload = (payload.results.map (fun o => o.vote_count)).sum ∧
    display_poll_results payload = payload.results.map (fun o =>
      (o.option_id, o.vote_count,
        if 0 < total_votes payload then
          ((o.vote_count : Rat) / (total_votes payload : Rat)) * 100
        else 0)) ∧
    total_votes examplePayload = 4 ∧
    display_poll_results examplePayload = [(1, 3, 75), (2, 1, 25)] :=
  ⟨rfl, rfl, rfl, by
    simp only [display_poll_results, examplePayload, total_votes, row_percentage]
    norm_num⟩

/-- Each percentage times the total and divided by 100 recovers the vote
count, over the rationals. -/
theorem sum_map_percentage_mul (t : Rat) (ht : t ≠ 0) (rows : List ResultRow) :
    (rows.map (fun o => (o.vote_count : Rat) / t * 100 * t / 100)).sum =
      (rows.map (fun o => (o.vote_count : Rat))).sum := by
  induction rows with
  | nil => simp
  | cons r rs ih =>
    simp only [List.map_cons, List.sum_cons, ih]
    congr 1
    field_simp

/-- The sum of the casts of the vote counts is the cast of the total. -/
theorem sum_map_cast_total (payload : ResultsPayload) :
    (payload.results.map (fun o => (o.vote_count : Rat))).sum =
      (total_votes payload : Rat) := by
  rw [total_votes, Nat.cast_list_sum, List.map_map]
  rfl

/-- C9: round-trip identity of the aggregator over exact rational arithmetic:
the sum over all rows of percentage times total divided by 100 equals the
total vote count, and when the total is 0 every row percentage is 0. -/
theorem display_poll_results_round_trip (payload : ResultsPayload) :
    ((display_poll_results payload).map
        (fun e => e.2.2 * (total_votes payload : Rat) / 100)).sum =
      (total_votes payload : Rat) ∧
    (total_votes payload = 0 → ∀ e ∈ display_poll_results payload, e.2.2 = 0) := by
  constructor
  · by_cases h : 0 < total_votes payload
    · have ht : (total_votes payload : Rat) ≠ 0 := by
        exact_mod_cast Nat.pos_iff_ne_zero.mp h
      have hmap : (display_poll_results payload).map
          (fun e => e.2.2 * (total_votes payload : Rat) / 100) =
          payload.results.map (fun o =>
            (o.vote_count : Rat) / (total_votes payload : Rat) * 100 *
              (total_votes payload : Rat) / 100) := by
        rw [display_poll_results, List.map_map]
        apply List.map_congr_left
        intro o _
        simp [row_percentage, h]
      rw [hmap, sum_map_percentage_mul _ ht, sum_map_cast_total]
    · have h0 : total_votes payload = 0 := by omega
      have hmap : (display_poll_results payload).map
          (fun e => e.2.2 * (total_votes payload : Rat) / 100) =
          payload.results.map (fun _ => (0 : Rat)) := by
        rw [display_poll_results, List.map_map]
        apply List.map_congr_left
        intro o _
        simp [row_percentage, h0]
      rw [hmap, h0]
      simp
  · intro h0 e he
    rw [display_poll_results] at he
    rw [List.mem_map] at he
    obtain ⟨o, _, rfl⟩ := he
    simp [row_percentage, h0]

/-- Witness for C9 at a payload with total 0: the round-trip sum is 0 and the
single row percentage is 0. -/
theorem display_poll_results_round_trip_witness :
    ((display_poll_results zeroPayload).map
        (fun e => e.2.2 * (total_votes zeroPayload : Rat) / 100)).sum =
      (total_votes zeroPayload : Rat) ∧
    ((1 : Nat), (0 : Nat), (0 : Rat)).2.2 = 0 := by
  refine ⟨(display_poll_results_round_trip zeroPayload).1, ?_⟩
  exact (display_poll_results_round_trip zeroPayload).2 (by decide)
    (1, 0, (0 : Rat)) (by decide)

/-- C4: get_poll_results maps a 200 response to the parsed payload; a 404
response to the not-found outcome, returning None with the diagnostic that
carries poll_id; and every other status to the request-failed outcome,
returning None with the diagnostic carrying the status and body. -/
theorem get_poll_results_status_map (base_url : String) (pid status : Nat)
    (body : String) (payload : ResultsPayload) :
    (get_poll_results base_url (.response 200 body payload) pid =
      (some payload, [])) ∧
    (get_poll_results base_url (.response 404 body payload) pid =
      (none, ["Error: Poll with ID " ++ toString pid ++ " not found"])) ∧
    (status ≠ 200 → status ≠ 404 →
      get_poll_results base_url (.response status body payload) pid =
        (none, ["Error: Unexpected status code " ++ toString status,
          "Response: " ++ body])) := by
  refine ⟨rfl, rfl, fun h1 h2 => ?_⟩
  simp [get_poll_results, h1, h2]

/-- Witness for C4 at a 500 response: None with the unexpected-status
diagnostic. -/
theorem get_poll_results_status_map_witness :
    get_poll_results ("http://localhost:8000")
        (.response 500 ("oops") examplePayload) 7 =
      (none, ["Error: Unexpected status code 500", "Response: oops"]) := by
  have h := (get_poll_results_status_map ("http://localhost:8000") 7 500 ("oops")
    examplePayload).2.2 (by omega) (by omega)
  exact h.trans (by rfl)

/-- C10: get_poll_results never propagates an error to the caller: on every
response status other than 200 and on every caught exception (connection
error, timeout, other request exception, any other exception) it returns None
as its first component, so the return value does not distinguish a missing
poll from a network failure. -/
theorem get_poll_results_none_on_error (base_url : String) (pid status : Nat)
    (body : String) (payload : ResultsPayload) (msg : String)
    (hne : status ≠ 200) :
    (get_poll_results base_url (.response status body payload) pid).1 = none ∧
    (get_poll_results base_url ReqOutcome.connectionError pid).1 = none ∧
    (get_poll_results base_url ReqOutcome.timeout pid).1 = none ∧
    (get_poll_results base_url (.requestException msg) pid).1 = none ∧
    (get_poll_results base_url (.otherException msg) pid).1 = none := by
  refine ⟨?_, rfl, rfl, rfl, rfl⟩
  by_cases h4 : status = 404
  · subst h4; simp [get_poll_results]
  · simp [get_poll_results, hne, h4]

/-- Witness for C10 at a 404 response: the first component is None, the same
value returned for a network failure. -/
theorem get_poll_results_none_on_error_witness :
    (get_poll_results ("http://localhost:8000")
      (.response 404 ("") examplePayload) 5).1 = none :=
  (get_poll_results_none_on_error ("http://localhost:8000") 5 404 ("")
    examplePayload ("") (by omega)).1

/-- C8 counterexample: a response with status 204 is a non-200 response that
does not make fetch_polls fail: raise_for_status raises only for statuses in
400..599, so the Python function falls off the if chain and returns None. -/
theorem fetch_polls_204_no_failure :
    fetch_polls pollServer204 0 10 = Except.ok none := rfl

/-- C8 amended: fetch_polls maps a 200 response to the parsed JSON array; a
response with status in 400..599 fails with the request-failed error carrying
the status and body; and a response with any other status yields no payload
(Python None) without failing. -/
theorem fetch_polls_status_map (server : Nat → Nat → HttpOutcome (List Poll))
    (skip limit status : Nat) (body : String) (pl : List Poll)
    (hs : server skip limit = .response status body pl) :
    (status = 200 → fetch_polls server skip limit = .ok (some pl)) ∧
    (400 ≤ status → status < 600 →
      fetch_polls server skip limit =
        .error (.requestException ("Failed to fetch polls: ")
          (.httpStatus status body))) ∧
    (status ≠ 200 → ¬(400 ≤ status ∧ status < 600) →
      fetch_polls server skip limit = .ok none) := by
  refine ⟨?_, ?_, ?_⟩
  · intro h; subst h; simp [fetch_polls, hs]
  · intro h1 h2
    have h3 : status ≠ 200 := by omega
    simp [fetch_polls, hs, h1, h2, h3]
  · intro h1 h2
    simp [fetch_polls, hs, h1, h2]

/-- Witness for C8 at a 500 response: the wrapped HTTPError carrying status
and body. -/
theorem fetch_polls_status_map_witness :
    fetch_polls pollServer500 0 10 =
      .error (.requestException ("Failed to fetch polls: ")
        (.httpStatus 500 ("server error"))) :=
  (fetch_polls_status_map pollServer500 0 10 500 ("server error") [] rfl).2.1
    (by omega) (by omega)

/-- C6 counterexample: a response with status 204 to the vote request is a
non-200 status that does not produce any failure: raise_for_status raises only
for statuses in 400..599, so vote_on_poll returns None. -/
theorem vote_on_poll_204_no_failure :
    vote_on_poll voteServer204 1 2 ("tok") = Except.ok none := rfl

/-- C6 amended: vote_on_poll maps a 200 response to the parsed vote object; a
401 response to the Unauthorized ValueError; a 404 response to the ValueError
whose message preserves both poll_id and option_id from the request context;
any other status in 400..599 to the wrapped HTTPError; and a response with any
remaining status yields no vote object (Python None) without failing. -/
theorem vote_on_poll_status_map
    (server : Nat → Nat → String → HttpOutcome VoteResponse)
    (pid oid : Nat) (tok : String) (status : Nat) (body : String)
    (vp : VoteResponse)
    (hs : server pid oid tok = .response status body vp) :
    (status = 200 → vote_on_poll server pid oid tok = .ok (some vp)) ∧
    (status = 401 → vote_on_poll server pid oid tok =
      .error (.valueError ("Unauthorized: Invalid or expired access token"))) ∧
    (status = 404 → vote_on_poll server pid oid tok =
      .error (.valueError ("Poll with ID " ++ toString pid ++
        " not found or option with ID " ++ toString oid ++ " not found"))) ∧
    (status ≠ 200 → status ≠ 401 → status ≠ 404 → 400 ≤ status → status < 600 →
      vote_on_poll server pid oid tok =
        .error (.requestException ("Failed to cast vote: ")
          (.httpStatus status body))) ∧
    (status ≠ 200 → ¬(400 ≤ status ∧ status < 600) →
      vote_on_poll server pid oid tok = .ok none) := by
  refine ⟨?_, ?_, ?_, ?_, ?_⟩
  · intro h; subst h; simp [vote_on_poll, hs]
  · intro h; subst h; simp [vote_on_poll, hs]
  · intro h; subst h; simp [vote_on_poll, hs]
  · intro h1 h2 h3 h4 h5
    simp [vote_on_poll, hs, h1, h2, h3, h4, h5]
  · intro h1 h2
    have h3 : status ≠ 401 := by omega
    have h4 : status ≠ 404 := by omega
    simp [vote_on_poll, hs, h1, h2, h3, h4]

/-- Witness for C6 at a 404 vote response: the ValueError message carries both
the poll id 1 and the option id 2 from the request context. -/
theorem vote_on_poll_status_map_witness :
    vote_on_poll voteServer404 1 2 ("tok") =
      .error (.valueError
        ("Poll with ID 1 not found or option with ID 2 not found")) := by
  have h := (vote_on_poll_status_map voteServer404 1 2 ("tok") 404 ("")
    { id := 0, user_id := 0, option_id := 0, created_at := ("") } rfl).2.2.1 rfl
  exact h.trans (by rfl)

/-- C7: in login_and_vote, a login failure aborts the sequence before any vote
request is issued (the instrumented vote-request list is empty): a 400 login
response raises the incorrect-credentials ValueError with zero vote requests;
any non-200 login status, and a login transport error, also issue zero vote
requests; and a 200 login uses the obtained access token exactly once, for the
single subsequent vote request. -/
theorem login_and_vote_sequencing
    (loginServer : String → String → HttpOutcome TokenPayload)
    (voteServer : Nat → Nat → String → HttpOutcome VoteResponse)
    (username password : String) (pid oid : Nat) :
    (∀ body tp, loginServer username password = .response 400 body tp →
      login_and_vote loginServer voteServer username password pid oid =
        (.error (.valueError ("Login failed: Incorrect username or password")),
          [])) ∧
    (∀ status body tp, loginServer username password = .response status body tp →
      status ≠ 200 →
      (login_and_vote loginServer voteServer username password pid oid).2 = []) ∧
    (∀ msg, loginServer username password = .requestError msg →
      (login_and_vote loginServer voteServer username password pid oid).2 = []) ∧
    (∀ body tp, loginServer username password = .response 200 body tp →
      (login_and_vote loginServer voteServer username password pid oid).2 =
        [(pid, oid, tp.access_token)]) := by
  refine ⟨?_, ?_, ?_, ?_⟩
  · intro body tp hs
    simp [login_and_vote, hs]
  · intro status body tp hs hne
    by_cases h4 : status = 400
    · subst h4; simp [login_and_vote, hs]
    · by_cases h5 : 400 ≤ status ∧ status < 600
      · simp [login_and_vote, hs, hne, h4, h5]
      · simp [login_and_vote, hs, hne, h4, h5]
  · intro msg hs
    simp [login_and_vote, hs]
  · intro body tp hs
    rw [login_and_vote, hs]
    simp only [if_pos rfl]
    cases hv : vote_on_poll voteServer pid oid tp.access_token with
    | error e => cases e <;> simp [hv]
    | ok v => simp [hv]

/-- Witness for C7 at a login endpoint answering 400: the sequence aborts with
the incorrect-credentials ValueError and the vote-request list is empty. -/
theorem login_and_vote_sequencing_witness :
    login_and_vote loginServer400 voteServer404 ("alice") ("pw") 1 2 =
      (.error (.valueError ("Login failed: Incorrect username or password")),
        []) :=
  (login_and_vote_sequencing loginServer400 voteServer404 ("alice") ("pw") 1 2).1
    ("") { access_token := ("") } rfl

end Polly

